import Mathlib

/-!
Verification of the skye-hub admin provisioning endpoint
(supabase/functions/admin_create_user/index.ts, structured-response version)
and of the admin console store-access synchronization
(frontend/src/pages/AdminUsersPage.tsx, syncStoreAccess).

The TypeScript handler is embedded as a pure state-passing function:
the identity service (Supabase auth) is a concrete account list, the
database is a concrete table of profile rows plus access-grant rows,
and the outcomes of external sends (invite email, reset email) and of
database errors are supplied by an oracle record. Random bytes for the
temporary password generator and the freshly generated correlation id
are explicit inputs. Side effects are recorded in an effect trace.
-/

namespace SkyeHub

/-! ## JavaScript-style values and truthiness -/

/-- A JSON-ish JavaScript value, used for fields where the handler applies
a plain truthiness test to an arbitrary value (home_store_id). -/
inductive JVal where
  | jnull : JVal
  | jbool : Bool → JVal
  | jnum : Int → JVal
  | jstr : String → JVal
deriving DecidableEq

/-- JavaScript truthiness of a JVal. -/
def JVal.truthy : JVal → Bool
  | .jnull => false
  | .jbool b => b
  | .jnum n => decide (n ≠ 0)
  | .jstr s => decide (s ≠ "")

/-- Truthiness of an optional string: absent and empty are falsy. -/
def truthyS : Option String → Bool
  | none => false
  | some s => decide (s ≠ "")

/-- Truthiness of an optional JVal: absent is falsy. -/
def optTruthy : Option JVal → Bool
  | none => false
  | some v => v.truthy

/-! ## Data model -/

/-- An identity-service (auth) account: subject id and email. -/
structure Account where
  id : String
  email : String
deriving DecidableEq

/-- A user_profiles row. -/
structure Profile where
  id : String
  full_name : String
  email : String
  role : String
  status : String
  home_store_id : Option JVal
  must_reset_password : Bool
deriving DecidableEq

/-- A user_store_access row (AccessGrant). -/
structure AccessGrant where
  user_id : String
  store_id : String
  assigned_by : Option String
deriving DecidableEq

/-- Identity-service state: the account list (in listing order) and a
counter used to mint fresh subject ids. -/
structure IdentityState where
  accounts : List Account
  nextId : Nat
deriving DecidableEq

/-- Database state: user_profiles and user_store_access tables. -/
structure Db where
  user_profiles : List Profile
  user_store_access : List AccessGrant
deriving DecidableEq

/-! ## Requests, responses, oracle -/

/-- The parsed JSON request body (each field optional, as on the wire). -/
structure RequestBody where
  mode : Option String
  email : Option String
  full_name : Option String
  role : Option String
  status : Option String
  home_store_id : Option JVal
  invite : Option Bool
  tempPassword : Option String
  redirectTo : Option String
deriving DecidableEq

/-- The HTTP request: method, authorization header, correlation header and
body (none when the body fails to parse as JSON). -/
structure HttpRequest where
  method : String
  authorization : Option String
  xCorrelationId : Option String
  body : Option RequestBody
deriving DecidableEq

/-- Environment configuration visible to the function. -/
structure EnvConfig where
  supabaseUrl : Option String
  serviceRoleKey : Option String
deriving DecidableEq

/-- Outcomes of the external calls that are not determined by the modelled
state: token resolution, database errors, and email-send errors. A none
error means the call succeeds. -/
structure Oracle where
  tokenUser : Option String
  profileLookupErr : Option String
  upsertErr : Option String
  inviteErr : Option String
  inviteLink : Option String
  resetErr : Option String
deriving DecidableEq

/-- Everything the handler consumes besides the mutable state: the request,
environment, oracle, the random bytes drawn by the password generator and
the freshly generated uuid used when no correlation header is supplied. -/
structure HandlerInput where
  req : HttpRequest
  env : EnvConfig
  oracle : Oracle
  rngBytes : List Nat
  freshCid : String
deriving DecidableEq

/-- The error object of a structured response. -/
structure ErrorBody where
  message : String
  code : Option String
  details : Option String
deriving DecidableEq

/-- The data object of a structured success response. A none field is
absent or null on the wire. -/
structure RespData where
  id : Option String
  inviteSent : Option Bool
  resetLink : Option String
  tempPassword : Option String
deriving DecidableEq

/-- The structured response payload. -/
structure RespPayload where
  ok : Bool
  data : Option RespData
  error : Option ErrorBody
  correlationId : Option String
deriving DecidableEq

/-- A handler response: the CORS preflight reply or a JSON reply. -/
inductive HResponse where
  | preflight : HResponse
  | json : Nat → RespPayload → HResponse
deriving DecidableEq

/-- An observable side effect of one handler execution. -/
inductive Effect where
  | accountCreated : String → String → String → Effect
  | profileUpserted : Profile → Effect
  | inviteEmailSent : String → Effect
  | resetEmailSent : String → Effect
deriving DecidableEq

/-- The result of one handler execution: response, final identity-service
state, final database state, and the effect trace. -/
structure HandlerResult where
  resp : HResponse
  ids : IdentityState
  db : Db
  effects : List Effect
deriving DecidableEq

/-! ## Small helpers mirroring the source -/

/-- Mirror of the jsonResponse helper. -/
def jsonResponse (status : Nat) (payload : RespPayload) : HResponse :=
  HResponse.json status payload

/-- An error payload in the shape the handler builds inline. -/
def errPayload (msg code : String) (details : Option String) (cid : String) :
    RespPayload :=
  { ok := false, data := none
    error := some { message := msg, code := some code, details := details }
    correlationId := some cid }

/-- Mirror of the correlation-id extraction: the x-correlation-id header if
truthy, else the freshly generated uuid. -/
def effectiveCorrelationId (inp : HandlerInput) : String :=
  match inp.req.xCorrelationId with
  | some h => if h = "" then inp.freshCid else h
  | none => inp.freshCid

/-- Lowercasing as a character-list map (the JS toLowerCase). -/
def strLower (s : String) : String :=
  String.mk (s.data.map Char.toLower)

/-- Leading-marker test as a character-list check. -/
def strStartsWith (s pre : String) : Bool :=
  pre.data.isPrefixOf s.data

/-- Whitespace trimming on both ends as a character-list operation. -/
def strTrim (s : String) : String :=
  String.mk
    (((s.data.dropWhile Char.isWhitespace).reverse.dropWhile Char.isWhitespace).reverse)

/-- Dropping the first n characters as a character-list operation. -/
def strDrop (s : String) (n : Nat) : String :=
  String.mk (s.data.drop n)

/-- Mirror of the bearer extraction: strip a leading case-insensitive
Bearer marker followed by a space, then trim. -/
def bearerToken (authHeader : String) : String :=
  if strStartsWith (strLower authHeader) "bearer " then strTrim (strDrop authHeader 7)
  else strTrim authHeader

/-- Mirror of genTempPassword: each random byte reduced mod 36 and written
as a base-36 digit, then the literal suffix. -/
def toChar36 (n : Nat) : Char :=
  if n < 10 then Char.ofNat (48 + n) else Char.ofNat (87 + n)

/-- The generated temporary password for a given draw of random bytes. -/
def genTempPassword (bytes : List Nat) : String :=
  String.mk (bytes.map (fun b => toChar36 (b % 36))) ++ "!A1"

/-- Case-insensitive email comparison, as in the find-by-email fallback. -/
def emailMatches (a : Account) (email : String) : Bool :=
  decide (strLower a.email = strLower email)

/-- Fresh subject id minted by the identity service. -/
def freshId (n : Nat) : String :=
  "uid-" ++ toString n

/-- The identity-service createUser call: fails when the email is already
registered (case-insensitively), otherwise appends a fresh account. -/
def createUser (st : IdentityState) (email : String) :
    Option String × Option String × IdentityState :=
  if st.accounts.any (fun a => emailMatches a email) then
    (none, some "A user with this email address has already been registered", st)
  else
    let uid := freshId st.nextId
    (some uid, none,
      { accounts := st.accounts ++ [{ id := uid, email := email }]
        nextId := st.nextId + 1 })

/-- One page of the identity-service listUsers call (page is 1-based). -/
def listUsersPage (st : IdentityState) (page perPage : Nat) : List Account :=
  (st.accounts.drop ((page - 1) * perPage)).take perPage

/-- The paginated find-by-email fallback: scan the first 5 pages of 200
users each, stopping at the first match. -/
def findUserByEmail (st : IdentityState) (email : String) : Option String :=
  (List.range 5).foldl
    (fun acc k =>
      match acc with
      | some uid => some uid
      | none =>
        match (listUsersPage st (k + 1) 200).find? (fun u => emailMatches u email) with
        | some u => some u.id
        | none => none)
    none

/-- Upsert with onConflict id: replace every row with the same id, or
append when no row has it. -/
def upsertProfile (rows : List Profile) (p : Profile) : List Profile :=
  if rows.any (fun q => decide (q.id = p.id)) then
    rows.map (fun q => if q.id = p.id then p else q)
  else rows ++ [p]

/-- The role of the caller profile row, empty string when absent
(maybeSingle followed by the nullish fallback). -/
def roleOf (rows : List Profile) (uid : String) : String :=
  ((rows.find? (fun p => decide (p.id = uid))).map Profile.role).getD ""

/-- The temporary password chosen in create mode: the provided one when
truthy, else the generated one. -/
def tempPasswordChosen (inp : HandlerInput) (body : RequestBody) : String :=
  if truthyS body.tempPassword then body.tempPassword.getD ""
  else genTempPassword inp.rngBytes

/-- Whether the optional invite email is requested and its send succeeds. -/
def inviteSucceeds (inp : HandlerInput) (body : RequestBody) : Bool :=
  body.invite.getD false && inp.oracle.inviteErr.isNone

/-- The profilePayload object built in create mode. -/
def mkProfilePayload (body : RequestBody) (uid : String) : Profile :=
  { id := uid
    full_name := body.full_name.getD ""
    email := body.email.getD ""
    role := if truthyS body.role then body.role.getD "" else "Employee"
    status := if truthyS body.status then body.status.getD "" else "active"
    home_store_id := if optTruthy body.home_store_id then body.home_store_id else none
    must_reset_password := if body.invite.getD false then false else true }

/-! ## The handler -/

/-- Reset mode: require an email, then call the send-password-reset
operation; surface its error, otherwise reply ok with a null reset link. -/
def resetFlow (inp : HandlerInput) (cid : String) (body : RequestBody)
    (st : IdentityState) (db : Db) : HandlerResult :=
  if truthyS body.email = false then
    ⟨jsonResponse 400 (errPayload "Email is required for password reset" "MISSING_FIELDS" none cid),
      st, db, []⟩
  else
    match inp.oracle.resetErr with
    | some e =>
      ⟨jsonResponse 500 (errPayload "Failed to send password reset email" "RESET_FAILED" (some e) cid),
        st, db, []⟩
    | none =>
      ⟨jsonResponse 200
          { ok := true
            data := some { id := none, inviteSent := none, resetLink := none, tempPassword := none }
            error := none, correlationId := some cid },
        st, db, [Effect.resetEmailSent (body.email.getD "")]⟩

/-- The tail of create mode once a subject id is known: upsert the profile
row, optionally send the invite email, and build the success payload. -/
def finishCreate (inp : HandlerInput) (cid : String) (body : RequestBody)
    (uid : String) (tempPassword : String) (st : IdentityState) (db : Db)
    (eff0 : List Effect) : HandlerResult :=
  match inp.oracle.upsertErr with
  | some e =>
    ⟨jsonResponse 500 (errPayload "Failed to create user profile" "PROFILE_UPSERT_FAILED" (some e) cid),
      st, db, eff0⟩
  | none =>
    ⟨jsonResponse 200
        { ok := true
          data := some
            { id := some uid
              inviteSent := some (inviteSucceeds inp body)
              resetLink := if inviteSucceeds inp body then inp.oracle.inviteLink else none
              tempPassword := if inviteSucceeds inp body then none else some tempPassword }
          error := none, correlationId := some cid },
      st,
      { db with user_profiles := upsertProfile db.user_profiles (mkProfilePayload body uid) },
      if inviteSucceeds inp body then
        eff0 ++ [Effect.profileUpserted (mkProfilePayload body uid),
                 Effect.inviteEmailSent (body.email.getD "")]
      else eff0 ++ [Effect.profileUpserted (mkProfilePayload body uid)]⟩

/-- Create mode: require email and full name, choose the temporary
password, create the auth account or fall back to the paginated
find-by-email scan, then finish with the profile upsert and invite. -/
def createFlow (inp : HandlerInput) (cid : String) (body : RequestBody)
    (st : IdentityState) (db : Db) : HandlerResult :=
  if truthyS body.email = false || truthyS body.full_name = false then
    ⟨jsonResponse 400 (errPayload "Email and full name are required" "MISSING_FIELDS" none cid),
      st, db, []⟩
  else
    match createUser st (body.email.getD "") with
    | (some uid, _, st2) =>
      finishCreate inp cid body uid (tempPasswordChosen inp body) st2 db
        [Effect.accountCreated uid (body.email.getD "") (tempPasswordChosen inp body)]
    | (none, createErr, st2) =>
      match findUserByEmail st2 (body.email.getD "") with
      | none =>
        ⟨jsonResponse 500 (errPayload "Failed to create user" "CREATE_USER_FAILED" createErr cid),
          st2, db, []⟩
      | some uid =>
        finishCreate inp cid body uid (tempPasswordChosen inp body) st2 db []

/-- The admin_create_user handler: preflight, method check, environment
check, bearer extraction, token validation, admin role check, body parse,
then reset or create mode. -/
def handler (inp : HandlerInput) (st : IdentityState) (db : Db) : HandlerResult :=
  if inp.req.method = "OPTIONS" then ⟨HResponse.preflight, st, db, []⟩
  else if inp.req.method ≠ "POST" then
    ⟨jsonResponse 405 (errPayload "Method Not Allowed" "METHOD_NOT_ALLOWED" none (effectiveCorrelationId inp)), st, db, []⟩
  else if truthyS inp.env.supabaseUrl = false ∨ truthyS inp.env.serviceRoleKey = false then
    ⟨jsonResponse 500
        (errPayload "Server configuration error: missing required environment variables" "MISSING_ENV" none (effectiveCorrelationId inp)),
      st, db, []⟩
  else if bearerToken (inp.req.authorization.getD "") = "" then
    ⟨jsonResponse 401 (errPayload "Missing authorization token" "MISSING_AUTH" none (effectiveCorrelationId inp)), st, db, []⟩
  else
    match inp.oracle.tokenUser with
    | none =>
      ⟨jsonResponse 401 (errPayload "Invalid or expired token" "INVALID_TOKEN" none (effectiveCorrelationId inp)), st, db, []⟩
    | some callerId =>
      match inp.oracle.profileLookupErr with
      | some e =>
        ⟨jsonResponse 500 (errPayload "Failed to verify admin permissions" "PROFILE_LOOKUP_FAILED" (some e) (effectiveCorrelationId inp)),
          st, db, []⟩
      | none =>
        if roleOf db.user_profiles callerId ≠ "Admin" then
          ⟨jsonResponse 403 (errPayload "Forbidden: Admin role required" "FORBIDDEN" none (effectiveCorrelationId inp)), st, db, []⟩
        else
          match inp.req.body with
          | none =>
            ⟨jsonResponse 400 (errPayload "Invalid JSON in request body" "INVALID_JSON" none (effectiveCorrelationId inp)), st, db, []⟩
          | some body =>
            if body.mode = some "reset" then resetFlow inp (effectiveCorrelationId inp) body st db
            else createFlow inp (effectiveCorrelationId inp) body st db

/-! ## Store-access synchronization (AdminUsersPage.syncStoreAccess) -/

/-- The writes issued by one syncStoreAccess call plus the new value of
the initial-assigned-stores set after the call. -/
structure SyncResult where
  inserts : List AccessGrant
  deletes : List String
  newInitial : List String
deriving DecidableEq

/-- Mirror of syncStoreAccess: diff the currently selected store ids
against the previously loaded ones, early-return when both diffs are
empty, otherwise batch-insert the additions (stamped with the acting
admin id) and batch-delete the removals, then remember the current set. -/
def syncStoreAccess (userId : String) (adminId : Option String)
    (initial current : List String) : SyncResult :=
  if (current.filter (fun sid => !(initial.contains sid))).isEmpty &&
     (initial.filter (fun sid => !(current.contains sid))).isEmpty then
    { inserts := [], deletes := [], newInitial := initial }
  else
    { inserts := (current.filter (fun sid => !(initial.contains sid))).map
        (fun sid => { user_id := userId, store_id := sid, assigned_by := adminId })
      deletes := initial.filter (fun sid => !(current.contains sid))
      newInitial := current }

/-! ## Gate lemma: behaviour once the caller is an authenticated admin -/

/-- All preconditions up to and including the admin role check. -/
def AdminGate (inp : HandlerInput) (db : Db) : Prop :=
  inp.req.method = "POST" ∧
  truthyS inp.env.supabaseUrl = true ∧
  truthyS inp.env.serviceRoleKey = true ∧
  bearerToken (inp.req.authorization.getD "") ≠ "" ∧
  inp.oracle.tokenUser.isSome = true ∧
  inp.oracle.profileLookupErr = none ∧
  roleOf db.user_profiles (inp.oracle.tokenUser.getD "") = "Admin"

instance (inp : HandlerInput) (db : Db) : Decidable (AdminGate inp db) := by
  unfold AdminGate
  infer_instance

theorem handler_gate (inp : HandlerInput) (st : IdentityState) (db : Db)
    (hg : AdminGate inp db) :
    handler inp st db =
      match inp.req.body with
      | none =>
        ⟨jsonResponse 400 (errPayload "Invalid JSON in request body" "INVALID_JSON" none
            (effectiveCorrelationId inp)), st, db, []⟩
      | some body =>
        if body.mode = some "reset" then
          resetFlow inp (effectiveCorrelationId inp) body st db
        else createFlow inp (effectiveCorrelationId inp) body st db := by
  obtain ⟨hm, hu, hk, hb, ht, hp, hr⟩ := hg
  obtain ⟨caller, hc⟩ := Option.isSome_iff_exists.mp ht
  rw [hc] at hr
  simp only [Option.getD_some] at hr
  unfold handler
  rw [hm, hc, hp]
  simp [hu, hk, hb, hr]

/-! ## C5: non-admin callers are rejected with no side effects -/

/-- C5: for every request from an authenticated caller whose profile role
is not Admin, the handler returns 403 with error code FORBIDDEN, the
identity-service state and the database are unchanged, and the effect
trace is empty. -/
theorem C5_forbidden_no_mutation (inp : HandlerInput) (st : IdentityState) (db : Db)
    (caller : String)
    (hm : inp.req.method = "POST")
    (hu : truthyS inp.env.supabaseUrl = true)
    (hk : truthyS inp.env.serviceRoleKey = true)
    (hb : bearerToken (inp.req.authorization.getD "") ≠ "")
    (hc : inp.oracle.tokenUser = some caller)
    (hp : inp.oracle.profileLookupErr = none)
    (hr : roleOf db.user_profiles caller ≠ "Admin") :
    handler inp st db =
      ⟨jsonResponse 403 (errPayload "Forbidden: Admin role required" "FORBIDDEN" none
          (effectiveCorrelationId inp)), st, db, []⟩ := by
  unfold handler
  rw [hm, hc, hp]
  simp [hu, hk, hb, hr]

/-- Witness for C5 at a concrete non-admin caller. -/
theorem C5_forbidden_no_mutation_witness :
    handler
      { req := { method := "POST", authorization := some "Bearer tok"
                 xCorrelationId := some "cid-5", body := none }
        env := { supabaseUrl := some "u", serviceRoleKey := some "k" }
        oracle := { tokenUser := some "emp-1", profileLookupErr := none, upsertErr := none
                    inviteErr := none, inviteLink := none, resetErr := none }
        rngBytes := [], freshCid := "f5" }
      { accounts := [], nextId := 0 }
      { user_profiles := [{ id := "emp-1", full_name := "E", email := "e@x", role := "Employee"
                            status := "active", home_store_id := none, must_reset_password := false }]
        user_store_access := [] } =
      ⟨jsonResponse 403 (errPayload "Forbidden: Admin role required" "FORBIDDEN" none "cid-5"),
        { accounts := [], nextId := 0 },
        { user_profiles := [{ id := "emp-1", full_name := "E", email := "e@x", role := "Employee"
                              status := "active", home_store_id := none, must_reset_password := false }]
          user_store_access := [] }, []⟩ :=
  C5_forbidden_no_mutation _ _ _ "emp-1" rfl (by decide) (by decide) (by decide) rfl rfl (by decide)

/-! ## C9: correlation id on every non-preflight response -/

/-- C9 (amended): every non-preflight response is a JSON response whose
correlationId is the x-correlation-id header when that header is present
and non-empty, and the freshly generated identifier otherwise. -/
theorem C9_correlationId_all_branches (inp : HandlerInput) (st : IdentityState) (db : Db)
    (h : inp.req.method ≠ "OPTIONS") :
    ∃ s pl, (handler inp st db).resp = HResponse.json s pl ∧
      pl.correlationId = some (effectiveCorrelationId inp) := by
  unfold handler resetFlow createFlow finishCreate
  rw [if_neg h]
  repeat' split
  all_goals exact ⟨_, _, rfl, rfl⟩

/-- Witness for C9 at a concrete request. -/
theorem C9_correlationId_all_branches_witness :
    ∃ s pl,
      (handler
        { req := { method := "GET", authorization := none, xCorrelationId := none, body := none }
          env := { supabaseUrl := none, serviceRoleKey := none }
          oracle := { tokenUser := none, profileLookupErr := none, upsertErr := none
                      inviteErr := none, inviteLink := none, resetErr := none }
          rngBytes := [], freshCid := "f9" }
        { accounts := [], nextId := 0 } { user_profiles := [], user_store_access := [] }).resp =
        HResponse.json s pl ∧
      pl.correlationId = some
        (effectiveCorrelationId
          { req := { method := "GET", authorization := none, xCorrelationId := none, body := none }
            env := { supabaseUrl := none, serviceRoleKey := none }
            oracle := { tokenUser := none, profileLookupErr := none, upsertErr := none
                        inviteErr := none, inviteLink := none, resetErr := none }
            rngBytes := [], freshCid := "f9" }) :=
  C9_correlationId_all_branches _ _ _ (by decide)

/-- C9 counterexample: a caller-supplied but empty x-correlation-id header
is not echoed; the handler substitutes the freshly generated identifier. -/
theorem C9_counterexample :
    (handler
        { req := { method := "POST", authorization := none, xCorrelationId := some "", body := none }
          env := { supabaseUrl := none, serviceRoleKey := none }
          oracle := { tokenUser := none, profileLookupErr := none, upsertErr := none
                      inviteErr := none, inviteLink := none, resetErr := none }
          rngBytes := [], freshCid := "fresh-cid-1" }
        { accounts := [], nextId := 0 } { user_profiles := [], user_store_access := [] }).resp =
      HResponse.json 500
        (errPayload "Server configuration error: missing required environment variables"
          "MISSING_ENV" none "fresh-cid-1") ∧
    ("fresh-cid-1" : String) ≠ "" := by
  constructor
  · decide
  · decide

/-! ## C6: reset mode mirrors the platform outcome -/

/-- C6: for every admin reset-mode request with an email present, the
handler replies ok with no recoverable reset-link value exactly when the
send-password-reset operation reports no error; otherwise it replies with
an upstream-failure error embedding the platform error message. A valid
but non-existent email the platform accepts (no error) therefore still
yields ok. -/
theorem C6_reset_outcome (inp : HandlerInput) (st : IdentityState) (db : Db)
    (body : RequestBody) (hg : AdminGate inp db)
    (hbody : inp.req.body = some body) (hmode : body.mode = some "reset")
    (hemail : truthyS body.email = true) :
    ((handler inp st db).resp =
        jsonResponse 200
          { ok := true
            data := some { id := none, inviteSent := none, resetLink := none, tempPassword := none }
            error := none, correlationId := some (effectiveCorrelationId inp) }
      ↔ inp.oracle.resetErr = none) ∧
    (inp.oracle.resetErr ≠ none →
      (handler inp st db).resp =
        jsonResponse 500 (errPayload "Failed to send password reset email" "RESET_FAILED"
          inp.oracle.resetErr (effectiveCorrelationId inp))) := by
  rw [handler_gate inp st db hg, hbody]
  simp only [hmode, if_pos rfl]
  cases hre : inp.oracle.resetErr with
  | none => simp [resetFlow, hemail, hre, jsonResponse, errPayload]
  | some e => simp [resetFlow, hemail, hre, jsonResponse, errPayload]

/-- Witness for C6 at a concrete admin reset request whose send succeeds. -/
theorem C6_reset_outcome_witness :
    ((handler
        { req := { method := "POST", authorization := some "Bearer tok"
                   xCorrelationId := some "cid-6"
                   body := some { mode := some "reset", email := some "ghost@x.com"
                                  full_name := none, role := none, status := none
                                  home_store_id := none, invite := none
                                  tempPassword := none, redirectTo := some "https://app/reset" } }
          env := { supabaseUrl := some "u", serviceRoleKey := some "k" }
          oracle := { tokenUser := some "admin-1", profileLookupErr := none, upsertErr := none
                      inviteErr := none, inviteLink := none, resetErr := none }
          rngBytes := [], freshCid := "f6" }
        { accounts := [], nextId := 0 }
        { user_profiles := [{ id := "admin-1", full_name := "Root", email := "r@x", role := "Admin"
                              status := "active", home_store_id := none, must_reset_password := false }]
          user_store_access := [] }).resp =
      jsonResponse 200
        { ok := true
          data := some { id := none, inviteSent := none, resetLink := none, tempPassword := none }
          error := none, correlationId := some "cid-6" }
      ↔ (none : Option String) = none) ∧
    ((none : Option String) ≠ none →
      (handler
        { req := { method := "POST", authorization := some "Bearer tok"
                   xCorrelationId := some "cid-6"
                   body := some { mode := some "reset", email := some "ghost@x.com"
                                  full_name := none, role := none, status := none
                                  home_store_id := none, invite := none
                                  tempPassword := none, redirectTo := some "https://app/reset" } }
          env := { supabaseUrl := some "u", serviceRoleKey := some "k" }
          oracle := { tokenUser := some "admin-1", profileLookupErr := none, upsertErr := none
                      inviteErr := none, inviteLink := none, resetErr := none }
          rngBytes := [], freshCid := "f6" }
        { accounts := [], nextId := 0 }
        { user_profiles := [{ id := "admin-1", full_name := "Root", email := "r@x", role := "Admin"
                              status := "active", home_store_id := none, must_reset_password := false }]
          user_store_access := [] }).resp =
        jsonResponse 500 (errPayload "Failed to send password reset email" "RESET_FAILED"
          none "cid-6")) :=
  C6_reset_outcome _ _ _ _ (by decide) rfl rfl (by decide)

/-! ## C2: the stored must_reset_password flag -/

theorem if_bool_flip (c : Bool) : (if c then false else true) = !c := by
  cases c <;> rfl

/-- C2: every UserProfile row written by the handler has
must_reset_password equal to the negation of the invite flag: true unless
an invite email is being sent, and in particular true whenever the create
request carries invite=false. -/
theorem C2_must_reset_password (inp : HandlerInput) (st : IdentityState) (db : Db)
    (b : RequestBody) (p : Profile)
    (hbody : inp.req.body = some b)
    (hmem : Effect.profileUpserted p ∈ (handler inp st db).effects) :
    p.must_reset_password = !(b.invite.getD false) ∧
    (b.invite = some false → p.must_reset_password = true) := by
  have hmr : p.must_reset_password = !(b.invite.getD false) := by
    unfold handler resetFlow createFlow finishCreate at hmem
    repeat' split at hmem
    all_goals simp_all [mkProfilePayload, if_bool_flip]
  exact ⟨hmr, fun hinv => by simp [hmr, hinv]⟩

/-- Witness for C2 at a concrete create request with invite=false. -/
theorem C2_must_reset_password_witness :
    (mkProfilePayload
        { mode := none, email := some "new@x.com", full_name := some "New Person"
          role := none, status := none, home_store_id := none
          invite := some false, tempPassword := none, redirectTo := none } "uid-0").must_reset_password
        = !((some false : Option Bool).getD false) ∧
    ((some false : Option Bool) = some false →
      (mkProfilePayload
        { mode := none, email := some "new@x.com", full_name := some "New Person"
          role := none, status := none, home_store_id := none
          invite := some false, tempPassword := none, redirectTo := none } "uid-0").must_reset_password
        = true) :=
  C2_must_reset_password
    { req := { method := "POST", authorization := some "Bearer tok"
               xCorrelationId := none
               body := some { mode := none, email := some "new@x.com", full_name := some "New Person"
                              role := none, status := none, home_store_id := none
                              invite := some false, tempPassword := none, redirectTo := none } }
      env := { supabaseUrl := some "u", serviceRoleKey := some "k" }
      oracle := { tokenUser := some "admin-1", profileLookupErr := none, upsertErr := none
                  inviteErr := none, inviteLink := none, resetErr := none }
      rngBytes := List.replicate 24 0, freshCid := "f2" }
    { accounts := [], nextId := 0 }
    { user_profiles := [{ id := "admin-1", full_name := "Root", email := "r@x", role := "Admin"
                          status := "active", home_store_id := none, must_reset_password := false }]
      user_store_access := [] }
    _ _ rfl (by decide)

/-! ## C10: falsy fields behave as absent -/

theorem truthyS_eq_false_iff (o : Option String) :
    truthyS o = false ↔ (o = none ∨ o = some "") := by
  cases o with
  | none => simp [truthyS]
  | some s => simp [truthyS]

/-- Every profile-upsert effect the handler emits writes exactly the
profilePayload object built from the parsed body and some subject id. -/
theorem upsert_effect_shape (inp : HandlerInput) (st : IdentityState) (db : Db)
    (p : Profile)
    (hmem : Effect.profileUpserted p ∈ (handler inp st db).effects) :
    ∃ body uid, inp.req.body = some body ∧ p = mkProfilePayload body uid := by
  unfold handler resetFlow createFlow finishCreate at hmem
  repeat' split at hmem
  all_goals simp at hmem
  all_goals exact ⟨_, _, by assumption, hmem⟩

/-- Every account-creation effect the handler emits uses the chosen
temporary password (provided when truthy, generated otherwise) and the
submitted email. -/
theorem created_effect_shape (inp : HandlerInput) (st : IdentityState) (db : Db)
    (uid e pw : String)
    (hmem : Effect.accountCreated uid e pw ∈ (handler inp st db).effects) :
    ∃ body, inp.req.body = some body ∧ e = body.email.getD "" ∧
      pw = tempPasswordChosen inp body := by
  unfold handler resetFlow createFlow finishCreate at hmem
  repeat' split at hmem
  all_goals simp at hmem
  all_goals exact ⟨_, by assumption, hmem.2.1, hmem.2.2⟩

/-- C10: a create request whose role, status or tempPassword is present
but empty, or whose home_store_id is any falsy value, is treated as if the
field were absent: the stored row gets role Employee and status active,
home_store_id is stored as null, and an empty tempPassword is replaced by
the freshly generated credential as the created account password. -/
theorem C10_falsy_fields_default (inp : HandlerInput) (st : IdentityState) (db : Db)
    (b : RequestBody) (p : Profile)
    (hbody : inp.req.body = some b)
    (hmem : Effect.profileUpserted p ∈ (handler inp st db).effects) :
    ((b.role = none ∨ b.role = some "") → p.role = "Employee") ∧
    ((b.status = none ∨ b.status = some "") → p.status = "active") ∧
    (optTruthy b.home_store_id = false → p.home_store_id = none) ∧
    ((b.tempPassword = none ∨ b.tempPassword = some "") →
      ∀ uid e pw, Effect.accountCreated uid e pw ∈ (handler inp st db).effects →
        pw = genTempPassword inp.rngBytes) := by
  obtain ⟨body, uid, hb2, hp⟩ := upsert_effect_shape inp st db p hmem
  rw [hbody] at hb2
  injection hb2 with hbb
  subst hbb
  refine ⟨fun hr => ?_, fun hs => ?_, fun hh => ?_, fun ht uid2 e2 pw2 hmem2 => ?_⟩
  · rw [← truthyS_eq_false_iff] at hr
    simp [hp, mkProfilePayload, hr]
  · rw [← truthyS_eq_false_iff] at hs
    simp [hp, mkProfilePayload, hs]
  · simp [hp, mkProfilePayload, hh]
  · rw [← truthyS_eq_false_iff] at ht
    obtain ⟨body2, hb3, he3, hpw⟩ := created_effect_shape inp st db uid2 e2 pw2 hmem2
    rw [hbody] at hb3
    injection hb3 with hbb2
    subst hbb2
    rw [hpw]
    simp [tempPasswordChosen, ht]

/-- Witness for C10 at a concrete create request whose role, status and
tempPassword are empty strings and whose home_store_id is an empty string
value. -/
theorem C10_falsy_fields_default_witness :
    (((some "" : Option String) = none ∨ (some "" : Option String) = some "") →
      (mkProfilePayload
        { mode := none, email := some "new@x.com", full_name := some "New Person"
          role := some "", status := some "", home_store_id := some (JVal.jstr "")
          invite := some false, tempPassword := some "", redirectTo := none } "uid-0").role
        = "Employee") ∧
    (((some "" : Option String) = none ∨ (some "" : Option String) = some "") →
      (mkProfilePayload
        { mode := none, email := some "new@x.com", full_name := some "New Person"
          role := some "", status := some "", home_store_id := some (JVal.jstr "")
          invite := some false, tempPassword := some "", redirectTo := none } "uid-0").status
        = "active") ∧
    (optTruthy (some (JVal.jstr "")) = false →
      (mkProfilePayload
        { mode := none, email := some "new@x.com", full_name := some "New Person"
          role := some "", status := some "", home_store_id := some (JVal.jstr "")
          invite := some false, tempPassword := some "", redirectTo := none } "uid-0").home_store_id
        = none) ∧
    (((some "" : Option String) = none ∨ (some "" : Option String) = some "") →
      ∀ uid e pw,
        Effect.accountCreated uid e pw ∈
          (handler
            { req := { method := "POST", authorization := some "Bearer tok"
                       xCorrelationId := none
                       body := some { mode := none, email := some "new@x.com"
                                      full_name := some "New Person"
                                      role := some "", status := some ""
                                      home_store_id := some (JVal.jstr "")
                                      invite := some false, tempPassword := some ""
                                      redirectTo := none } }
              env := { supabaseUrl := some "u", serviceRoleKey := some "k" }
              oracle := { tokenUser := some "admin-1", profileLookupErr := none, upsertErr := none
                          inviteErr := none, inviteLink := none, resetErr := none }
              rngBytes := List.replicate 24 0, freshCid := "f10" }
            { accounts := [], nextId := 0 }
            { user_profiles := [{ id := "admin-1", full_name := "Root", email := "r@x", role := "Admin"
                                  status := "active", home_store_id := none, must_reset_password := false }]
              user_store_access := [] }).effects →
        pw = genTempPassword (List.replicate 24 0)) :=
  C10_falsy_fields_default
    { req := { method := "POST", authorization := some "Bearer tok"
               xCorrelationId := none
               body := some { mode := none, email := some "new@x.com"
                              full_name := some "New Person"
                              role := some "", status := some ""
                              home_store_id := some (JVal.jstr "")
                              invite := some false, tempPassword := some ""
                              redirectTo := none } }
      env := { supabaseUrl := some "u", serviceRoleKey := some "k" }
      oracle := { tokenUser := some "admin-1", profileLookupErr := none, upsertErr := none
                  inviteErr := none, inviteLink := none, resetErr := none }
      rngBytes := List.replicate 24 0, freshCid := "f10" }
    { accounts := [], nextId := 0 }
    { user_profiles := [{ id := "admin-1", full_name := "Root", email := "r@x", role := "Admin"
                          status := "active", home_store_id := none, must_reset_password := false }]
      user_store_access := [] }
    _ _ rfl (by decide)

/-! ## Create-mode success characterization (shared by several claims) -/

/-- Test for a profile-write effect. -/
def isProfileWrite : Effect → Bool
  | Effect.profileUpserted _ => true
  | _ => false

/-- Test for an email-send effect (invite or reset). -/
def isEmailSend : Effect → Bool
  | Effect.inviteEmailSent _ => true
  | Effect.resetEmailSent _ => true
  | _ => false

set_option maxHeartbeats 1000000 in
/-- Any JSON response whose data object carries a subject id is the
create-mode success response: status 200, inviteSent reporting whether the
invite email went out, the temporary credential present exactly when it
did not, exactly one profile write, and at most one email sent. -/
theorem create_success_shape (inp : HandlerInput) (st : IdentityState) (db : Db)
    (s : Nat) (pl : RespPayload) (d : RespData)
    (hresp : (handler inp st db).resp = HResponse.json s pl)
    (hdata : pl.data = some d)
    (hid : d.id.isSome = true) :
    ∃ body uid,
      inp.req.body = some body ∧
      s = 200 ∧ pl.ok = true ∧
      d.id = some uid ∧
      d.inviteSent = some (inviteSucceeds inp body) ∧
      d.tempPassword = (if inviteSucceeds inp body then none
        else some (tempPasswordChosen inp body)) ∧
      ((∃ e, Effect.inviteEmailSent e ∈ (handler inp st db).effects) ↔
        inviteSucceeds inp body = true) ∧
      (handler inp st db).effects.countP isProfileWrite = 1 := by
  rcases hres : handler inp st db with ⟨resp, ids2, db2, eff⟩
  rw [hres] at hresp
  simp only at hresp ⊢
  unfold handler resetFlow createFlow finishCreate at hres
  repeat' split at hres
  all_goals injection hres with h1 h2 h3 h4
  all_goals subst h4
  all_goals rw [← h1] at hresp
  all_goals try exact HResponse.noConfusion hresp
  all_goals simp only [jsonResponse, HResponse.json.injEq] at hresp
  all_goals obtain ⟨hs, hpl⟩ := hresp
  all_goals subst hs
  all_goals subst hpl
  all_goals try (simp only [errPayload] at hdata; exact Option.noConfusion hdata)
  all_goals injection hdata with hd
  all_goals subst hd
  all_goals try simp at hid
  all_goals exact ⟨_, _, by assumption, rfl, rfl, rfl, by simp_all, by simp_all,
    by simp_all [List.mem_append], by simp_all [isProfileWrite, List.countP_cons, List.countP_nil]⟩

/-- Frame facts holding for every execution: the user_store_access table
is never touched and at most one email is sent. -/
theorem handler_frame (inp : HandlerInput) (st : IdentityState) (db : Db) :
    (handler inp st db).db.user_store_access = db.user_store_access ∧
    (handler inp st db).effects.countP isEmailSend ≤ 1 := by
  unfold handler resetFlow createFlow finishCreate
  repeat' split
  all_goals simp [isEmailSend, List.countP_cons, List.countP_nil]

/-! ## C8: side-effect envelope of the endpoint -/

/-- C8: every execution of the handler leaves the AccessGrant table
(user_store_access) unchanged and sends at most one email, and every
successful create-mode execution performs exactly one UserProfile write. -/
theorem C8_side_effect_envelope (inp : HandlerInput) (st : IdentityState) (db : Db) :
    (handler inp st db).db.user_store_access = db.user_store_access ∧
    (handler inp st db).effects.countP isEmailSend ≤ 1 ∧
    (∀ s pl d, (handler inp st db).resp = HResponse.json s pl → pl.data = some d →
      d.id.isSome = true →
      (handler inp st db).effects.countP isProfileWrite = 1) := by
  refine ⟨(handler_frame inp st db).1, (handler_frame inp st db).2, ?_⟩
  intro s pl d hresp hdata hid
  obtain ⟨body, uid, _, _, _, _, _, _, _, hcount⟩ :=
    create_success_shape inp st db s pl d hresp hdata hid
  exact hcount

/-- Witness for C8 at a concrete successful create request. -/
theorem C8_side_effect_envelope_witness :
    (handler
        { req := { method := "POST", authorization := some "Bearer tok"
                   xCorrelationId := none
                   body := some { mode := none, email := some "new@x.com"
                                  full_name := some "New Person", role := none, status := none
                                  home_store_id := none, invite := some false
                                  tempPassword := none, redirectTo := none } }
          env := { supabaseUrl := some "u", serviceRoleKey := some "k" }
          oracle := { tokenUser := some "admin-1", profileLookupErr := none, upsertErr := none
                      inviteErr := none, inviteLink := none, resetErr := none }
          rngBytes := List.replicate 24 0, freshCid := "f8" }
        { accounts := [], nextId := 0 }
        { user_profiles := [{ id := "admin-1", full_name := "Root", email := "r@x", role := "Admin"
                              status := "active", home_store_id := none, must_reset_password := false }]
          user_store_access := [{ user_id := "emp-1", store_id := "s1", assigned_by := some "admin-1" }] }).db.user_store_access
      = [{ user_id := "emp-1", store_id := "s1", assigned_by := some "admin-1" }] ∧
    (handler
        { req := { method := "POST", authorization := some "Bearer tok"
                   xCorrelationId := none
                   body := some { mode := none, email := some "new@x.com"
                                  full_name := some "New Person", role := none, status := none
                                  home_store_id := none, invite := some false
                                  tempPassword := none, redirectTo := none } }
          env := { supabaseUrl := some "u", serviceRoleKey := some "k" }
          oracle := { tokenUser := some "admin-1", profileLookupErr := none, upsertErr := none
                      inviteErr := none, inviteLink := none, resetErr := none }
          rngBytes := List.replicate 24 0, freshCid := "f8" }
        { accounts := [], nextId := 0 }
        { user_profiles := [{ id := "admin-1", full_name := "Root", email := "r@x", role := "Admin"
                              status := "active", home_store_id := none, must_reset_password := false }]
          user_store_access := [{ user_id := "emp-1", store_id := "s1", assigned_by := some "admin-1" }] }).effects.countP isEmailSend ≤ 1 ∧
    (∀ s pl d,
      (handler
        { req := { method := "POST", authorization := some "Bearer tok"
                   xCorrelationId := none
                   body := some { mode := none, email := some "new@x.com"
                                  full_name := some "New Person", role := none, status := none
                                  home_store_id := none, invite := some false
                                  tempPassword := none, redirectTo := none } }
          env := { supabaseUrl := some "u", serviceRoleKey := some "k" }
          oracle := { tokenUser := some "admin-1", profileLookupErr := none, upsertErr := none
                      inviteErr := none, inviteLink := none, resetErr := none }
          rngBytes := List.replicate 24 0, freshCid := "f8" }
        { accounts := [], nextId := 0 }
        { user_profiles := [{ id := "admin-1", full_name := "Root", email := "r@x", role := "Admin"
                              status := "active", home_store_id := none, must_reset_password := false }]
          user_store_access := [{ user_id := "emp-1", store_id := "s1", assigned_by := some "admin-1" }] }).resp
        = HResponse.json s pl → pl.data = some d → d.id.isSome = true →
      (handler
        { req := { method := "POST", authorization := some "Bearer tok"
                   xCorrelationId := none
                   body := some { mode := none, email := some "new@x.com"
                                  full_name := some "New Person", role := none, status := none
                                  home_store_id := none, invite := some false
                                  tempPassword := none, redirectTo := none } }
          env := { supabaseUrl := some "u", serviceRoleKey := some "k" }
          oracle := { tokenUser := some "admin-1", profileLookupErr := none, upsertErr := none
                      inviteErr := none, inviteLink := none, resetErr := none }
          rngBytes := List.replicate 24 0, freshCid := "f8" }
        { accounts := [], nextId := 0 }
        { user_profiles := [{ id := "admin-1", full_name := "Root", email := "r@x", role := "Admin"
                              status := "active", home_store_id := none, must_reset_password := false }]
          user_store_access := [{ user_id := "emp-1", store_id := "s1", assigned_by := some "admin-1" }] }).effects.countP isProfileWrite = 1) :=
  C8_side_effect_envelope _ _ _

/-! ## C4: temporary credential present iff no invite email went out -/

/-- C4: in every create-mode success response, the temporary credential is
absent exactly when an invite email was successfully sent, and present
otherwise (invite not requested, or its send failed). -/
theorem C4_temp_credential_iff_no_invite (inp : HandlerInput) (st : IdentityState) (db : Db)
    (s : Nat) (pl : RespPayload) (d : RespData)
    (hresp : (handler inp st db).resp = HResponse.json s pl)
    (hdata : pl.data = some d)
    (hid : d.id.isSome = true) :
    d.tempPassword = none ↔ ∃ e, Effect.inviteEmailSent e ∈ (handler inp st db).effects := by
  obtain ⟨body, uid, hb, hs2, hok, hid2, hinv, htp, hiff, _⟩ :=
    create_success_shape inp st db s pl d hresp hdata hid
  cases hcase : inviteSucceeds inp body with
  | true => simp [htp, hiff, hcase]
  | false => simp [htp, hiff, hcase]

/-- Witness for C4 at a concrete create request with a successful invite:
the temporary credential is absent and the invite email effect occurred. -/
theorem C4_temp_credential_iff_no_invite_witness :
    ({ id := some "uid-0", inviteSent := some true, resetLink := some "https://link"
       tempPassword := none } : RespData).tempPassword = none ↔
      ∃ e, Effect.inviteEmailSent e ∈
        (handler
          { req := { method := "POST", authorization := some "Bearer tok"
                     xCorrelationId := none
                     body := some { mode := none, email := some "new@x.com"
                                    full_name := some "New Person", role := none, status := none
                                    home_store_id := none, invite := some true
                                    tempPassword := none, redirectTo := none } }
            env := { supabaseUrl := some "u", serviceRoleKey := some "k" }
            oracle := { tokenUser := some "admin-1", profileLookupErr := none, upsertErr := none
                        inviteErr := none, inviteLink := some "https://link", resetErr := none }
            rngBytes := List.replicate 24 0, freshCid := "f4" }
          { accounts := [], nextId := 0 }
          { user_profiles := [{ id := "admin-1", full_name := "Root", email := "r@x", role := "Admin"
                                status := "active", home_store_id := none, must_reset_password := false }]
            user_store_access := [] }).effects :=
  C4_temp_credential_iff_no_invite _ _ _ 200
    { ok := true
      data := some { id := some "uid-0", inviteSent := some true
                     resetLink := some "https://link", tempPassword := none }
      error := none, correlationId := some "f4" }
    { id := some "uid-0", inviteSent := some true, resetLink := some "https://link"
      tempPassword := none }
    (by decide) rfl (by decide)

/-! ## C3: shape of the generated temporary credential -/

theorem genTempPassword_data (bytes : List Nat) :
    (genTempPassword bytes).data =
      bytes.map (fun b => toChar36 (b % 36)) ++ ['!', 'A', '1'] := by
  rfl

theorem genTempPassword_length (bytes : List Nat) :
    (genTempPassword bytes).length = bytes.length + 3 := by
  show (genTempPassword bytes).data.length = bytes.length + 3
  rw [genTempPassword_data]
  simp

/-- C3 (amended): for every create-mode success response with invite not
successfully sent and no truthy tempPassword supplied, the response
carries the generated credential, which for every possible draw of the 24
random bytes is non-empty, has 27 characters (above the 12-character
minimum), and contains a digit, an uppercase letter and a punctuation
character. A lowercase letter is not guaranteed, so full mixed case does
not hold for every possible generator output. -/
theorem C3_generated_credential (inp : HandlerInput) (st : IdentityState) (db : Db)
    (s : Nat) (pl : RespPayload) (d : RespData) (b : RequestBody)
    (hbody : inp.req.body = some b)
    (htp : b.tempPassword = none ∨ b.tempPassword = some "")
    (hlen : inp.rngBytes.length = 24)
    (hresp : (handler inp st db).resp = HResponse.json s pl)
    (hdata : pl.data = some d)
    (hid : d.id.isSome = true)
    (hnoinv : d.inviteSent = some false) :
    d.tempPassword = some (genTempPassword inp.rngBytes) ∧
    genTempPassword inp.rngBytes ≠ "" ∧
    (genTempPassword inp.rngBytes).length = 27 ∧
    ('1' ∈ (genTempPassword inp.rngBytes).data ∧ Char.isDigit '1' = true) ∧
    ('A' ∈ (genTempPassword inp.rngBytes).data ∧ Char.isUpper 'A' = true) ∧
    ('!' ∈ (genTempPassword inp.rngBytes).data ∧ Char.isAlphanum '!' = false) := by
  obtain ⟨body, uid, hb2, hs2, hok, hid2, hinv, htpw, hiff, hcount⟩ :=
    create_success_shape inp st db s pl d hresp hdata hid
  rw [hbody] at hb2
  injection hb2 with hbb
  subst hbb
  rw [hinv] at hnoinv
  injection hnoinv with hsent
  rw [← truthyS_eq_false_iff] at htp
  simp only [hsent, tempPasswordChosen, htp, Bool.false_eq_true, if_false] at htpw
  refine ⟨htpw, ?_, ?_, ?_, ?_, ?_⟩
  · intro hwrong
    have : (genTempPassword inp.rngBytes).data = [] := by rw [hwrong]
    rw [genTempPassword_data] at this
    simp at this
  · rw [genTempPassword_length, hlen]
  · rw [genTempPassword_data]
    exact ⟨List.mem_append_right _ (by simp), by decide⟩
  · rw [genTempPassword_data]
    exact ⟨List.mem_append_right _ (by simp), by decide⟩
  · rw [genTempPassword_data]
    exact ⟨List.mem_append_right _ (by simp), by decide⟩

/-- Witness for C3 at a concrete create request (invite=false, no
tempPassword) with an arbitrary concrete byte draw. -/
theorem C3_generated_credential_witness :
    ({ id := some "uid-0", inviteSent := some false, resetLink := none
       tempPassword := some (genTempPassword (35 :: List.replicate 23 9)) } : RespData).tempPassword
        = some (genTempPassword (35 :: List.replicate 23 9)) ∧
    genTempPassword (35 :: List.replicate 23 9) ≠ "" ∧
    (genTempPassword (35 :: List.replicate 23 9)).length = 27 ∧
    ('1' ∈ (genTempPassword (35 :: List.replicate 23 9)).data ∧ Char.isDigit '1' = true) ∧
    ('A' ∈ (genTempPassword (35 :: List.replicate 23 9)).data ∧ Char.isUpper 'A' = true) ∧
    ('!' ∈ (genTempPassword (35 :: List.replicate 23 9)).data ∧ Char.isAlphanum '!' = false) :=
  C3_generated_credential
    { req := { method := "POST", authorization := some "Bearer tok"
               xCorrelationId := none
               body := some { mode := none, email := some "new@x.com"
                              full_name := some "New Person", role := none, status := none
                              home_store_id := none, invite := some false
                              tempPassword := none, redirectTo := none } }
      env := { supabaseUrl := some "u", serviceRoleKey := some "k" }
      oracle := { tokenUser := some "admin-1", profileLookupErr := none, upsertErr := none
                  inviteErr := none, inviteLink := none, resetErr := none }
      rngBytes := 35 :: List.replicate 23 9, freshCid := "f3" }
    { accounts := [], nextId := 0 }
    { user_profiles := [{ id := "admin-1", full_name := "Root", email := "r@x", role := "Admin"
                          status := "active", home_store_id := none, must_reset_password := false }]
      user_store_access := [] }
    200
    { ok := true
      data := some { id := some "uid-0", inviteSent := some false, resetLink := none
                     tempPassword := some (genTempPassword (35 :: List.replicate 23 9)) }
      error := none, correlationId := some "f3" }
    { id := some "uid-0", inviteSent := some false, resetLink := none
      tempPassword := some (genTempPassword (35 :: List.replicate 23 9)) }
    _ rfl (Or.inl rfl) (by decide) (by decide) rfl (by decide) rfl

/-- C3 counterexample: when every random byte reduces to a digit (here
all zeros), the returned generated credential contains no lowercase
letter, so the mixed-case requirement fails for this possible output of
the generator. -/
theorem C3_counterexample :
    (handler
        { req := { method := "POST", authorization := some "Bearer tok"
                   xCorrelationId := some "cf3"
                   body := some { mode := none, email := some "new@x.com"
                                  full_name := some "New Person", role := none, status := none
                                  home_store_id := none, invite := some false
                                  tempPassword := none, redirectTo := none } }
          env := { supabaseUrl := some "u", serviceRoleKey := some "k" }
          oracle := { tokenUser := some "admin-1", profileLookupErr := none, upsertErr := none
                      inviteErr := none, inviteLink := none, resetErr := none }
          rngBytes := List.replicate 24 0, freshCid := "fx3" }
        { accounts := [], nextId := 0 }
        { user_profiles := [{ id := "admin-1", full_name := "Root", email := "r@x", role := "Admin"
                              status := "active", home_store_id := none, must_reset_password := false }]
          user_store_access := [] }).resp =
      jsonResponse 200
        { ok := true
          data := some { id := some "uid-0", inviteSent := some false, resetLink := none
                         tempPassword := some "000000000000000000000000!A1" }
          error := none, correlationId := some "cf3" } ∧
    ("000000000000000000000000!A1".data.all (fun c => !c.isLower)) = true := by
  constructor
  · decide
  · decide

/-! ## C7: store-access synchronization -/

/-- C7: the sync inserts exactly the stores in the target set but not the
initial set (each stamped with the acting admin), deletes exactly the
stores in the initial set but not the target set, issues no writes when
the two sets are equal, and a second run against the updated initial set
issues no writes at all. -/
theorem C7_store_access_sync (userId : String) (adminId : Option String)
    (initial current : List String)
    (hi : initial.Nodup) (hc : current.Nodup) :
    (∀ sid,
      (syncStoreAccess userId adminId initial current).inserts.count
          { user_id := userId, store_id := sid, assigned_by := adminId } =
        if sid ∈ current ∧ sid ∉ initial then 1 else 0) ∧
    (∀ g ∈ (syncStoreAccess userId adminId initial current).inserts,
      g.user_id = userId ∧ g.assigned_by = adminId) ∧
    (∀ sid,
      (syncStoreAccess userId adminId initial current).deletes.count sid =
        if sid ∈ initial ∧ sid ∉ current then 1 else 0) ∧
    ((∀ sid, sid ∈ initial ↔ sid ∈ current) →
      (syncStoreAccess userId adminId initial current).inserts = [] ∧
      (syncStoreAccess userId adminId initial current).deletes = []) ∧
    ((syncStoreAccess userId adminId
        (syncStoreAccess userId adminId initial current).newInitial current).inserts = [] ∧
      (syncStoreAccess userId adminId
        (syncStoreAccess userId adminId initial current).newInitial current).deletes = []) := by
  have hmemAdd : ∀ sid, (sid ∈ current.filter (fun x => !(initial.contains x))) ↔
      (sid ∈ current ∧ sid ∉ initial) := by
    intro sid; simp [List.mem_filter]
  have hmemRem : ∀ sid, (sid ∈ initial.filter (fun x => !(current.contains x))) ↔
      (sid ∈ initial ∧ sid ∉ current) := by
    intro sid; simp [List.mem_filter]
  have hcountAdd : ∀ sid, (current.filter (fun x => !(initial.contains x))).count sid =
      if sid ∈ current ∧ sid ∉ initial then 1 else 0 := by
    intro sid
    by_cases h : sid ∈ current ∧ sid ∉ initial
    · rw [if_pos h]
      exact List.count_eq_one_of_mem (hc.filter _) ((hmemAdd sid).mpr h)
    · rw [if_neg h]
      exact List.count_eq_zero_of_not_mem (fun hm => h ((hmemAdd sid).mp hm))
  have hcountRem : ∀ sid, (initial.filter (fun x => !(current.contains x))).count sid =
      if sid ∈ initial ∧ sid ∉ current then 1 else 0 := by
    intro sid
    by_cases h : sid ∈ initial ∧ sid ∉ current
    · rw [if_pos h]
      exact List.count_eq_one_of_mem (hi.filter _) ((hmemRem sid).mpr h)
    · rw [if_neg h]
      exact List.count_eq_zero_of_not_mem (fun hm => h ((hmemRem sid).mp hm))
  have hselfAdd : ∀ l : List String, l.filter (fun x => !(l.contains x)) = [] := by
    intro l
    rw [List.filter_eq_nil_iff]
    intro a ha
    simp [ha]
  have hinj : Function.Injective
      (fun sid => ({ user_id := userId, store_id := sid, assigned_by := adminId } : AccessGrant)) :=
    fun a b h => congrArg AccessGrant.store_id h
  by_cases hempty :
      ((current.filter (fun x => !(initial.contains x))).isEmpty &&
       (initial.filter (fun x => !(current.contains x))).isEmpty) = true
  · obtain ⟨hA, hB⟩ := Bool.and_eq_true_iff.mp hempty
    replace hA := List.isEmpty_iff.mp hA
    replace hB := List.isEmpty_iff.mp hB
    have hres : syncStoreAccess userId adminId initial current =
        { inserts := [], deletes := [], newInitial := initial } := by
      unfold syncStoreAccess
      rw [if_pos hempty]
    refine ⟨fun sid => ?_, fun g hg => ?_, fun sid => ?_, fun _ => ?_, ?_⟩
    · rw [hres]
      simp only [List.count_nil]
      rw [← hcountAdd sid, hA, List.count_nil]
    · rw [hres] at hg
      simp at hg
    · rw [hres]
      simp only [List.count_nil]
      rw [← hcountRem sid, hB, List.count_nil]
    · rw [hres]
      exact ⟨rfl, rfl⟩
    · rw [hres]
      rw [hres]
      exact ⟨rfl, rfl⟩
  · have hres : syncStoreAccess userId adminId initial current =
        { inserts := (current.filter (fun sid => !(initial.contains sid))).map
            (fun sid => { user_id := userId, store_id := sid, assigned_by := adminId })
          deletes := initial.filter (fun sid => !(current.contains sid))
          newInitial := current } := by
      unfold syncStoreAccess
      rw [if_neg hempty]
    refine ⟨fun sid => ?_, fun g hg => ?_, fun sid => ?_, fun hiff => ?_, ?_⟩
    · rw [hres]
      rw [← hcountAdd sid]
      exact List.count_map_of_injective _ _ hinj _
    · rw [hres] at hg
      obtain ⟨sid, _, rfl⟩ := List.mem_map.mp hg
      exact ⟨rfl, rfl⟩
    · rw [hres]
      exact hcountRem sid
    · exfalso
      apply hempty
      have hA : current.filter (fun x => !(initial.contains x)) = [] := by
        rw [List.filter_eq_nil_iff]
        intro a ha
        simp [(hiff a).mpr ha]
      have hB : initial.filter (fun x => !(current.contains x)) = [] := by
        rw [List.filter_eq_nil_iff]
        intro a ha
        simp [(hiff a).mp ha]
      rw [hA, hB]
      rfl
    · have hcond : ((current.filter (fun x => !(current.contains x))).isEmpty &&
          (current.filter (fun x => !(current.contains x))).isEmpty) = true := by
        rw [hselfAdd current]
        rfl
      have hres2 : syncStoreAccess userId adminId current current =
          { inserts := [], deletes := [], newInitial := current } := by
        unfold syncStoreAccess
        rw [if_pos hcond]
      rw [hres, hres2]
      exact ⟨rfl, rfl⟩

/-- Witness for C7 at the concrete scenario initial set A,B and target
set B,C. -/
theorem C7_store_access_sync_witness :
    (∀ sid,
      (syncStoreAccess "u1" (some "adm") ["A", "B"] ["B", "C"]).inserts.count
          { user_id := "u1", store_id := sid, assigned_by := some "adm" } =
        if sid ∈ ["B", "C"] ∧ sid ∉ ["A", "B"] then 1 else 0) ∧
    (∀ g ∈ (syncStoreAccess "u1" (some "adm") ["A", "B"] ["B", "C"]).inserts,
      g.user_id = "u1" ∧ g.assigned_by = some "adm") ∧
    (∀ sid,
      (syncStoreAccess "u1" (some "adm") ["A", "B"] ["B", "C"]).deletes.count sid =
        if sid ∈ ["A", "B"] ∧ sid ∉ ["B", "C"] then 1 else 0) ∧
    ((∀ sid, sid ∈ ["A", "B"] ↔ sid ∈ ["B", "C"]) →
      (syncStoreAccess "u1" (some "adm") ["A", "B"] ["B", "C"]).inserts = [] ∧
      (syncStoreAccess "u1" (some "adm") ["A", "B"] ["B", "C"]).deletes = []) ∧
    ((syncStoreAccess "u1" (some "adm")
        (syncStoreAccess "u1" (some "adm") ["A", "B"] ["B", "C"]).newInitial ["B", "C"]).inserts = [] ∧
      (syncStoreAccess "u1" (some "adm")
        (syncStoreAccess "u1" (some "adm") ["A", "B"] ["B", "C"]).newInitial ["B", "C"]).deletes = []) :=
  C7_store_access_sync "u1" (some "adm") ["A", "B"] ["B", "C"] (by decide) (by decide)

/-! ## C1: create-or-find idempotency on email -/

/-- The five-page scan equals a single search over the first 1000 listed
accounts. -/
theorem findUserByEmail_eq_take (st : IdentityState) (email : String) :
    findUserByEmail st email =
      ((st.accounts.take 1000).find? (fun u => emailMatches u email)).map Account.id := by
  have e1 : st.accounts.take 1000 =
      st.accounts.take 200 ++ (st.accounts.drop 200).take 800 := by
    rw [← List.take_add]
  have d2 : st.accounts.drop 400 = (st.accounts.drop 200).drop 200 := by
    rw [List.drop_drop]
  have d3 : st.accounts.drop 600 = (st.accounts.drop 400).drop 200 := by
    rw [List.drop_drop]
  have d4 : st.accounts.drop 800 = (st.accounts.drop 600).drop 200 := by
    rw [List.drop_drop]
  have e2 : (st.accounts.drop 200).take 800 =
      (st.accounts.drop 200).take 200 ++ (st.accounts.drop 400).take 600 := by
    rw [d2, ← List.take_add]
  have e3 : (st.accounts.drop 400).take 600 =
      (st.accounts.drop 400).take 200 ++ (st.accounts.drop 600).take 400 := by
    rw [d3, ← List.take_add]
  have e4 : (st.accounts.drop 600).take 400 =
      (st.accounts.drop 600).take 200 ++ (st.accounts.drop 800).take 200 := by
    rw [d4, ← List.take_add]
  rw [e1, List.find?_append, e2, List.find?_append, e3, List.find?_append,
    e4, List.find?_append]
  unfold findUserByEmail
  rw [show List.range 5 = [0, 1, 2, 3, 4] from rfl]
  simp only [List.foldl_cons, List.foldl_nil, listUsersPage]
  norm_num [List.drop_zero]
  clear e1 d2 d3 d4 e2 e3 e4
  cases h1 : (st.accounts.take 200).find? (fun u => emailMatches u email) with
  | some u => rfl
  | none =>
    cases h2 : ((st.accounts.drop 200).take 200).find? (fun u => emailMatches u email) with
    | some u => rfl
    | none =>
      cases h3 : ((st.accounts.drop 400).take 200).find? (fun u => emailMatches u email) with
      | some u => rfl
      | none =>
        cases h4 : ((st.accounts.drop 600).take 200).find? (fun u => emailMatches u email) with
        | some u => rfl
        | none =>
          cases h5 : ((st.accounts.drop 800).take 200).find? (fun u => emailMatches u email) with
          | some u => rfl
          | none => rfl

/-- Upserting a row whose id is not present appends it. -/
theorem upsertProfile_not_present (rows : List Profile) (p : Profile)
    (h : ∀ q ∈ rows, q.id ≠ p.id) :
    upsertProfile rows p = rows ++ [p] := by
  have hcond : rows.any (fun q => decide (q.id = p.id)) = false := by
    rw [List.any_eq_false]
    intro q hq
    simp [h q hq]
  unfold upsertProfile
  rw [hcond]
  rfl

/-- Upserting a row whose id is already present keeps the count of rows
with that id unchanged. -/
theorem upsertProfile_present_countP (rows : List Profile) (p : Profile) (uid : String)
    (hid : p.id = uid)
    (hpres : rows.any (fun q => decide (q.id = p.id)) = true) :
    (upsertProfile rows p).countP (fun q => q.id == uid) =
      rows.countP (fun q => q.id == uid) := by
  subst hid
  unfold upsertProfile
  rw [hpres]
  simp only [if_true]
  rw [List.countP_map]
  apply List.countP_congr
  intro q hq
  by_cases h : q.id = p.id
  · simp [h]
  · simp [h]

/-- Appending a profile row does not change the role of a caller whose
profile row already resolves. -/
theorem roleOf_append (L : List Profile) (p : Profile) (uid : String)
    (h : roleOf L uid ≠ "") :
    roleOf (L ++ [p]) uid = roleOf L uid := by
  unfold roleOf at h ⊢
  cases hf : L.find? (fun q => decide (q.id = uid)) with
  | none => rw [hf] at h; simp at h
  | some prof =>
    rw [List.find?_append, hf]
    rfl

set_option maxHeartbeats 1000000 in
/-- C1 (amended): submitting the same create request twice is idempotent
on email provided the identity service holds fewer than 1000 accounts
before the first call (so the existing account lands within the five
scanned pages): both calls return status 200 with the same subject id,
the identity-service state does not change on the second call, and
exactly one UserProfile row with that id exists afterwards. -/
theorem C1_create_idempotent_on_email (inp : HandlerInput) (st : IdentityState) (db : Db)
    (b : RequestBody) (caller : String)
    (hm : inp.req.method = "POST")
    (hu : truthyS inp.env.supabaseUrl = true)
    (hk : truthyS inp.env.serviceRoleKey = true)
    (hb : bearerToken (inp.req.authorization.getD "") ≠ "")
    (hc : inp.oracle.tokenUser = some caller)
    (hp : inp.oracle.profileLookupErr = none)
    (hr : roleOf db.user_profiles caller = "Admin")
    (hbody : inp.req.body = some b)
    (hmode : ¬(b.mode = some "reset"))
    (hemail : truthyS b.email = true)
    (hname : truthyS b.full_name = true)
    (hups : inp.oracle.upsertErr = none)
    (hfresh : st.accounts.all (fun a => !(emailMatches a (b.email.getD ""))) = true)
    (hcap : st.accounts.length < 1000)
    (hnoprof : ∀ q ∈ db.user_profiles, q.id ≠ freshId st.nextId) :
    ∃ pl1 d1 pl2 d2,
      (handler inp st db).resp = HResponse.json 200 pl1 ∧ pl1.data = some d1 ∧
      d1.id = some (freshId st.nextId) ∧
      (handler inp (handler inp st db).ids (handler inp st db).db).resp = HResponse.json 200 pl2 ∧
      pl2.data = some d2 ∧ d2.id = some (freshId st.nextId) ∧
      (handler inp (handler inp st db).ids (handler inp st db).db).ids = (handler inp st db).ids ∧
      (handler inp (handler inp st db).ids (handler inp st db).db).db.user_profiles.countP
        (fun q => q.id == freshId st.nextId) = 1 := by
  have hany : st.accounts.any (fun a => emailMatches a (b.email.getD "")) = false := by
    rw [List.any_eq_false]
    intro a ha
    have := List.all_eq_true.mp hfresh a ha
    simpa using this
  have hgate1 : AdminGate inp db :=
    ⟨hm, hu, hk, hb, by rw [hc]; rfl, hp, by rw [hc]; exact hr⟩
  have hcu : createUser st (b.email.getD "") =
      (some (freshId st.nextId), none,
        { accounts := st.accounts ++ [({ id := freshId st.nextId, email := b.email.getD "" } : Account)]
          nextId := st.nextId + 1 }) := by
    unfold createUser
    rw [hany]
    rfl
  have hnop2 : ∀ q ∈ db.user_profiles, q.id ≠ (mkProfilePayload b (freshId st.nextId)).id :=
    hnoprof
  have hr1 : handler inp st db =
      ⟨jsonResponse 200
          { ok := true
            data := some
              { id := some (freshId st.nextId)
                inviteSent := some (inviteSucceeds inp b)
                resetLink := if inviteSucceeds inp b then inp.oracle.inviteLink else none
                tempPassword := if inviteSucceeds inp b then none
                  else some (tempPasswordChosen inp b) }
            error := none, correlationId := some (effectiveCorrelationId inp) },
        { accounts := st.accounts ++ [({ id := freshId st.nextId, email := b.email.getD "" } : Account)]
          nextId := st.nextId + 1 },
        { user_profiles := upsertProfile db.user_profiles (mkProfilePayload b (freshId st.nextId))
          user_store_access := db.user_store_access },
        if inviteSucceeds inp b then
          [Effect.accountCreated (freshId st.nextId) (b.email.getD "") (tempPasswordChosen inp b)] ++
            [Effect.profileUpserted (mkProfilePayload b (freshId st.nextId)),
             Effect.inviteEmailSent (b.email.getD "")]
        else
          [Effect.accountCreated (freshId st.nextId) (b.email.getD "") (tempPasswordChosen inp b)] ++
            [Effect.profileUpserted (mkProfilePayload b (freshId st.nextId))]⟩ := by
    rw [handler_gate inp st db hgate1, hbody]
    simp only [if_neg hmode]
    unfold createFlow
    rw [if_neg (by simp [hemail, hname])]
    simp only [hcu]
    unfold finishCreate
    simp only [hups]
  rw [upsertProfile_not_present db.user_profiles (mkProfilePayload b (freshId st.nextId)) hnop2] at hr1
  have hrole2 : roleOf (db.user_profiles ++ [mkProfilePayload b (freshId st.nextId)]) caller
      = "Admin" := by
    rw [roleOf_append _ _ _ (by rw [hr]; simp)]
    exact hr
  have hgate2 : AdminGate inp
      { user_profiles := db.user_profiles ++ [mkProfilePayload b (freshId st.nextId)]
        user_store_access := db.user_store_access } :=
    ⟨hm, hu, hk, hb, by rw [hc]; rfl, hp, by rw [hc]; exact hrole2⟩
  have hany2 : (st.accounts ++ [({ id := freshId st.nextId, email := b.email.getD "" } : Account)]).any
      (fun a => emailMatches a (b.email.getD "")) = true := by
    rw [List.any_append]
    simp [emailMatches]
  have hcu2 : createUser
      { accounts := st.accounts ++ [({ id := freshId st.nextId, email := b.email.getD "" } : Account)]
        nextId := st.nextId + 1 } (b.email.getD "") =
      (none, some "A user with this email address has already been registered",
        { accounts := st.accounts ++ [({ id := freshId st.nextId, email := b.email.getD "" } : Account)]
          nextId := st.nextId + 1 }) := by
    unfold createUser
    rw [hany2]
    rfl
  have hfind2 : findUserByEmail
      { accounts := st.accounts ++ [({ id := freshId st.nextId, email := b.email.getD "" } : Account)]
        nextId := st.nextId + 1 } (b.email.getD "") = some (freshId st.nextId) := by
    rw [findUserByEmail_eq_take]
    have htake : (st.accounts ++ [({ id := freshId st.nextId, email := b.email.getD "" } : Account)]).take 1000 =
        st.accounts ++ [({ id := freshId st.nextId, email := b.email.getD "" } : Account)] := by
      apply List.take_of_length_le
      rw [List.length_append]
      simp only [List.length_singleton]
      omega
    simp only
    rw [htake, List.find?_append]
    have hnone : st.accounts.find? (fun u => emailMatches u (b.email.getD "")) = none := by
      apply List.find?_eq_none.mpr
      intro a ha
      have := List.all_eq_true.mp hfresh a ha
      simpa using this
    rw [hnone]
    simp [emailMatches]
  have hpres : (db.user_profiles ++ [mkProfilePayload b (freshId st.nextId)]).any
      (fun q => decide (q.id = (mkProfilePayload b (freshId st.nextId)).id)) = true := by
    rw [List.any_append]
    simp
  have hr2 : handler inp
      { accounts := st.accounts ++ [({ id := freshId st.nextId, email := b.email.getD "" } : Account)]
        nextId := st.nextId + 1 }
      { user_profiles := db.user_profiles ++ [mkProfilePayload b (freshId st.nextId)]
        user_store_access := db.user_store_access } =
      ⟨jsonResponse 200
          { ok := true
            data := some
              { id := some (freshId st.nextId)
                inviteSent := some (inviteSucceeds inp b)
                resetLink := if inviteSucceeds inp b then inp.oracle.inviteLink else none
                tempPassword := if inviteSucceeds inp b then none
                  else some (tempPasswordChosen inp b) }
            error := none, correlationId := some (effectiveCorrelationId inp) },
        { accounts := st.accounts ++ [({ id := freshId st.nextId, email := b.email.getD "" } : Account)]
          nextId := st.nextId + 1 },
        { user_profiles := upsertProfile
            (db.user_profiles ++ [mkProfilePayload b (freshId st.nextId)])
            (mkProfilePayload b (freshId st.nextId))
          user_store_access := db.user_store_access },
        if inviteSucceeds inp b then
          [] ++ [Effect.profileUpserted (mkProfilePayload b (freshId st.nextId)),
                 Effect.inviteEmailSent (b.email.getD "")]
        else
          [] ++ [Effect.profileUpserted (mkProfilePayload b (freshId st.nextId))]⟩ := by
    rw [handler_gate inp _ _ hgate2, hbody]
    simp only [if_neg hmode]
    unfold createFlow
    rw [if_neg (by simp [hemail, hname])]
    simp only [hcu2]
    simp only [hfind2]
    unfold finishCreate
    simp only [hups]
  rw [hr1]
  dsimp only
  rw [hr2]
  dsimp only
  refine ⟨_, _, _, _, rfl, rfl, rfl, rfl, rfl, rfl, rfl, ?_⟩
  rw [upsertProfile_present_countP _ _ (freshId st.nextId) rfl hpres, List.countP_append]
  have h0 : db.user_profiles.countP (fun q => q.id == freshId st.nextId) = 0 := by
    rw [List.countP_eq_zero]
    intro q hq
    simpa using hnoprof q hq
  rw [h0]
  simp [List.countP_cons, List.countP_nil, mkProfilePayload]

/-- Witness for C1 at a concrete admin create request against an empty
identity service. -/
theorem C1_create_idempotent_on_email_witness :
    ∃ pl1 d1 pl2 d2,
      (handler
          { req := { method := "POST", authorization := some "Bearer tok"
                     xCorrelationId := none
                     body := some { mode := none, email := some "new@x.com"
                                    full_name := some "New Person", role := none, status := none
                                    home_store_id := none, invite := some false
                                    tempPassword := none, redirectTo := none } }
            env := { supabaseUrl := some "u", serviceRoleKey := some "k" }
            oracle := { tokenUser := some "admin-1", profileLookupErr := none, upsertErr := none
                        inviteErr := none, inviteLink := none, resetErr := none }
            rngBytes := List.replicate 24 0, freshCid := "f1" }
          { accounts := [], nextId := 0 }
          { user_profiles := [{ id := "admin-1", full_name := "Root", email := "r@x", role := "Admin"
                                status := "active", home_store_id := none, must_reset_password := false }]
            user_store_access := [] }).resp = HResponse.json 200 pl1 ∧
      pl1.data = some d1 ∧
      d1.id = some (freshId 0) ∧
      (handler
          { req := { method := "POST", authorization := some "Bearer tok"
                     xCorrelationId := none
                     body := some { mode := none, email := some "new@x.com"
                                    full_name := some "New Person", role := none, status := none
                                    home_store_id := none, invite := some false
                                    tempPassword := none, redirectTo := none } }
            env := { supabaseUrl := some "u", serviceRoleKey := some "k" }
            oracle := { tokenUser := some "admin-1", profileLookupErr := none, upsertErr := none
                        inviteErr := none, inviteLink := none, resetErr := none }
            rngBytes := List.replicate 24 0, freshCid := "f1" }
          (handler
            { req := { method := "POST", authorization := some "Bearer tok"
                       xCorrelationId := none
                       body := some { mode := none, email := some "new@x.com"
                                      full_name := some "New Person", role := none, status := none
                                      home_store_id := none, invite := some false
                                      tempPassword := none, redirectTo := none } }
              env := { supabaseUrl := some "u", serviceRoleKey := some "k" }
              oracle := { tokenUser := some "admin-1", profileLookupErr := none, upsertErr := none
                          inviteErr := none, inviteLink := none, resetErr := none }
              rngBytes := List.replicate 24 0, freshCid := "f1" }
            { accounts := [], nextId := 0 }
            { user_profiles := [{ id := "admin-1", full_name := "Root", email := "r@x", role := "Admin"
                                  status := "active", home_store_id := none, must_reset_password := false }]
              user_store_access := [] }).ids
          (handler
            { req := { method := "POST", authorization := some "Bearer tok"
                       xCorrelationId := none
                       body := some { mode := none, email := some "new@x.com"
                                      full_name := some "New Person", role := none, status := none
                                      home_store_id := none, invite := some false
                                      tempPassword := none, redirectTo := none } }
              env := { supabaseUrl := some "u", serviceRoleKey := some "k" }
              oracle := { tokenUser := some "admin-1", profileLookupErr := none, upsertErr := none
                          inviteErr := none, inviteLink := none, resetErr := none }
              rngBytes := List.replicate 24 0, freshCid := "f1" }
            { accounts := [], nextId := 0 }
            { user_profiles := [{ id := "admin-1", full_name := "Root", email := "r@x", role := "Admin"
                                  status := "active", home_store_id := none, must_reset_password := false }]
              user_store_access := [] }).db).resp = HResponse.json 200 pl2 ∧
      pl2.data = some d2 ∧
      d2.id = some (freshId 0) ∧
      (handler
          { req := { method := "POST", authorization := some "Bearer tok"
                     xCorrelationId := none
                     body := some { mode := none, email := some "new@x.com"
                                    full_name := some "New Person", role := none, status := none
                                    home_store_id := none, invite := some false
                                    tempPassword := none, redirectTo := none } }
            env := { supabaseUrl := some "u", serviceRoleKey := some "k" }
            oracle := { tokenUser := some "admin-1", profileLookupErr := none, upsertErr := none
                        inviteErr := none, inviteLink := none, resetErr := none }
            rngBytes := List.replicate 24 0, freshCid := "f1" }
          (handler
            { req := { method := "POST", authorization := some "Bearer tok"
                       xCorrelationId := none
                       body := some { mode := none, email := some "new@x.com"
                                      full_name := some "New Person", role := none, status := none
                                      home_store_id := none, invite := some false
                                      tempPassword := none, redirectTo := none } }
              env := { supabaseUrl := some "u", serviceRoleKey := some "k" }
              oracle := { tokenUser := some "admin-1", profileLookupErr := none, upsertErr := none
                          inviteErr := none, inviteLink := none, resetErr := none }
              rngBytes := List.replicate 24 0, freshCid := "f1" }
            { accounts := [], nextId := 0 }
            { user_profiles := [{ id := "admin-1", full_name := "Root", email := "r@x", role := "Admin"
                                  status := "active", home_store_id := none, must_reset_password := false }]
              user_store_access := [] }).ids
          (handler
            { req := { method := "POST", authorization := some "Bearer tok"
                       xCorrelationId := none
                       body := some { mode := none, email := some "new@x.com"
                                      full_name := some "New Person", role := none, status := none
                                      home_store_id := none, invite := some false
                                      tempPassword := none, redirectTo := none } }
              env := { supabaseUrl := some "u", serviceRoleKey := some "k" }
              oracle := { tokenUser := some "admin-1", profileLookupErr := none, upsertErr := none
                          inviteErr := none, inviteLink := none, resetErr := none }
              rngBytes := List.replicate 24 0, freshCid := "f1" }
            { accounts := [], nextId := 0 }
            { user_profiles := [{ id := "admin-1", full_name := "Root", email := "r@x", role := "Admin"
                                  status := "active", home_store_id := none, must_reset_password := false }]
              user_store_access := [] }).db).ids =
        (handler
          { req := { method := "POST", authorization := some "Bearer tok"
                     xCorrelationId := none
                     body := some { mode := none, email := some "new@x.com"
                                    full_name := some "New Person", role := none, status := none
                                    home_store_id := none, invite := some false
                                    tempPassword := none, redirectTo := none } }
            env := { supabaseUrl := some "u", serviceRoleKey := some "k" }
            oracle := { tokenUser := some "admin-1", profileLookupErr := none, upsertErr := none
                        inviteErr := none, inviteLink := none, resetErr := none }
            rngBytes := List.replicate 24 0, freshCid := "f1" }
          { accounts := [], nextId := 0 }
          { user_profiles := [{ id := "admin-1", full_name := "Root", email := "r@x", role := "Admin"
                                status := "active", home_store_id := none, must_reset_password := false }]
            user_store_access := [] }).ids ∧
      (handler
          { req := { method := "POST", authorization := some "Bearer tok"
                     xCorrelationId := none
                     body := some { mode := none, email := some "new@x.com"
                                    full_name := some "New Person", role := none, status := none
                                    home_store_id := none, invite := some false
                                    tempPassword := none, redirectTo := none } }
            env := { supabaseUrl := some "u", serviceRoleKey := some "k" }
            oracle := { tokenUser := some "admin-1", profileLookupErr := none, upsertErr := none
                        inviteErr := none, inviteLink := none, resetErr := none }
            rngBytes := List.replicate 24 0, freshCid := "f1" }
          (handler
            { req := { method := "POST", authorization := some "Bearer tok"
                       xCorrelationId := none
                       body := some { mode := none, email := some "new@x.com"
                                      full_name := some "New Person", role := none, status := none
                                      home_store_id := none, invite := some false
                                      tempPassword := none, redirectTo := none } }
              env := { supabaseUrl := some "u", serviceRoleKey := some "k" }
              oracle := { tokenUser := some "admin-1", profileLookupErr := none, upsertErr := none
                          inviteErr := none, inviteLink := none, resetErr := none }
              rngBytes := List.replicate 24 0, freshCid := "f1" }
            { accounts := [], nextId := 0 }
            { user_profiles := [{ id := "admin-1", full_name := "Root", email := "r@x", role := "Admin"
                                  status := "active", home_store_id := none, must_reset_password := false }]
              user_store_access := [] }).ids
          (handler
            { req := { method := "POST", authorization := some "Bearer tok"
                       xCorrelationId := none
                       body := some { mode := none, email := some "new@x.com"
                                      full_name := some "New Person", role := none, status := none
                                      home_store_id := none, invite := some false
                                      tempPassword := none, redirectTo := none } }
              env := { supabaseUrl := some "u", serviceRoleKey := some "k" }
              oracle := { tokenUser := some "admin-1", profileLookupErr := none, upsertErr := none
                          inviteErr := none, inviteLink := none, resetErr := none }
              rngBytes := List.replicate 24 0, freshCid := "f1" }
            { accounts := [], nextId := 0 }
            { user_profiles := [{ id := "admin-1", full_name := "Root", email := "r@x", role := "Admin"
                                  status := "active", home_store_id := none, must_reset_password := false }]
              user_store_access := [] }).db).db.user_profiles.countP
        (fun q => q.id == freshId 0) = 1 :=
  C1_create_idempotent_on_email _ _ _ _ "admin-1" rfl (by decide) (by decide) (by decide)
    rfl rfl (by decide) rfl (by decide) (by decide) (by decide) rfl (by decide) (by decide)
    (by decide)

/-- C1 counterexample: the email bob at x already has an identity-service
account, but it sits at position 1001 of the listing, beyond the five
scanned pages of 200, so the endpoint answers 500 CREATE_USER_FAILED
instead of recovering the existing subject id. -/
theorem C1_counterexample :
    ((List.replicate 1000 ({ id := "filler", email := "a@x" } : Account) ++
        [({ id := "uid-existing", email := "bob@x" } : Account)]).any
      (fun a => emailMatches a "bob@x")) = true ∧
    (handler
        { req := { method := "POST", authorization := some "Bearer tok"
                   xCorrelationId := some "c1cid"
                   body := some { mode := none, email := some "bob@x"
                                  full_name := some "Bob", role := none, status := none
                                  home_store_id := none, invite := some false
                                  tempPassword := none, redirectTo := none } }
          env := { supabaseUrl := some "u", serviceRoleKey := some "k" }
          oracle := { tokenUser := some "admin-1", profileLookupErr := none, upsertErr := none
                      inviteErr := none, inviteLink := none, resetErr := none }
          rngBytes := List.replicate 24 0, freshCid := "fc1" }
        { accounts := List.replicate 1000 ({ id := "filler", email := "a@x" } : Account) ++
            [({ id := "uid-existing", email := "bob@x" } : Account)]
          nextId := 0 }
        { user_profiles := [{ id := "admin-1", full_name := "Root", email := "r@x", role := "Admin"
                              status := "active", home_store_id := none, must_reset_password := false }]
          user_store_access := [] }).resp =
      HResponse.json 500
        (errPayload "Failed to create user" "CREATE_USER_FAILED"
          (some "A user with this email address has already been registered") "c1cid") := by
  have hany : ((List.replicate 1000 ({ id := "filler", email := "a@x" } : Account) ++
      [({ id := "uid-existing", email := "bob@x" } : Account)]).any
        (fun a => emailMatches a "bob@x")) = true := by
    rw [List.any_append]
    rw [show (([({ id := "uid-existing", email := "bob@x" } : Account)]).any
      (fun a => emailMatches a "bob@x")) = true by decide]
    rw [Bool.or_true]
  refine ⟨hany, ?_⟩
  have hcu : createUser
      { accounts := List.replicate 1000 ({ id := "filler", email := "a@x" } : Account) ++
          [({ id := "uid-existing", email := "bob@x" } : Account)]
        nextId := 0 } "bob@x" =
      (none, some "A user with this email address has already been registered",
        { accounts := List.replicate 1000 ({ id := "filler", email := "a@x" } : Account) ++
            [({ id := "uid-existing", email := "bob@x" } : Account)]
          nextId := 0 }) := by
    unfold createUser
    dsimp only
    rw [hany]
    rfl
  have hnone : (List.replicate 1000 ({ id := "filler", email := "a@x" } : Account)).find?
      (fun u => emailMatches u "bob@x") = none := by
    apply List.find?_eq_none.mpr
    intro a ha
    rw [List.eq_of_mem_replicate ha]
    decide
  have hfind : findUserByEmail
      { accounts := List.replicate 1000 ({ id := "filler", email := "a@x" } : Account) ++
          [({ id := "uid-existing", email := "bob@x" } : Account)]
        nextId := 0 } "bob@x" = none := by
    rw [findUserByEmail_eq_take]
    dsimp only
    rw [List.take_left' (List.length_replicate 1000 _), hnone]
    rfl
  rw [handler_gate _ _ _ (by decide)]
  dsimp only
  rw [if_neg (by decide)]
  unfold createFlow
  rw [if_neg (by decide)]
  simp only [Option.getD_some]
  simp only [hcu]
  simp only [hfind]
  rfl

end SkyeHub
